import Mathlib

/-!
Verification of the message intake / classification / routing pipeline.

The definitions below are a shallow embedding of the Python sources:
  src/processing/message_classifier.py  (MessageClassifier)
  src/processing/nlp_processor.py       (NLPProcessor)
  src/main.py                           (the orchestrator loop in main)
  src/storage/google_sheets.py          (GoogleSheetsStorage.store_message)
  src/scheduling/calendly.py            (CalendlyScheduler)

External library calls (re.search, the spaCy pipeline, the LLM model, the
Google Sheets API, datetime formatting) are modelled as oracle parameters:
a call that can raise is an `Except Unit` valued oracle, a call that only
produces data is a plain function argument.  Everything the repository
itself computes is translated directly.
-/

/-- The closed set of intent labels used by the classifier
(message_classifier.py pattern table plus the sentinels produced by
`classify`: the four pattern labels, `other`, and `unknown`). -/
inductive Intent where
  | interview_request
  | follow_up
  | job_offer
  | networking
  | other
  | unknown
deriving DecidableEq

/-- The string form of each label as it appears in the Python sources. -/
def intentStr : Intent → String
  | .interview_request => "interview_request"
  | .follow_up => "follow_up"
  | .job_offer => "job_offer"
  | .networking => "networking"
  | .other => "other"
  | .unknown => "unknown"

/-- Regex source strings of `self.patterns["interview_request"]`
(message_classifier.py lines 25-35). -/
def interviewPats : List String :=
  ["interview",
   "meet(ing)?(\\s|to\\s|for\\s)",
   "schedule(\\sa)?(\\s|call|chat|meeting)",
   "available(\\s|for|to)",
   "speak(\\s|with|to)",
   "discuss(\\s|your|the)",
   "call(\\s|with|to)",
   "time(\\s|for|to)",
   "talk(\\s|about|with)"]

/-- Regex source strings of `self.patterns["follow_up"]`
(message_classifier.py lines 36-43). -/
def followUpPats : List String :=
  ["follow(ing)?(\\s|-)?up",
   "checking(\\s|in)",
   "status",
   "update",
   "progress",
   "hear(ing)?(\\s|back|from)"]

/-- Regex source strings of `self.patterns["job_offer"]`
(message_classifier.py lines 44-54). -/
def jobOfferPats : List String :=
  ["offer",
   "position",
   "role",
   "salary",
   "compensation",
   "package",
   "accept",
   "join(\\s|our|the)",
   "welcome(\\s|to|aboard)"]

/-- Regex source strings of `self.patterns["networking"]`
(message_classifier.py lines 55-64; note "introduction" really is listed
twice in the source). -/
def networkingPats : List String :=
  ["connect",
   "network",
   "introduction",
   "contact",
   "recommendation",
   "refer",
   "introduction",
   "community"]

/-- `self.patterns` of MessageClassifier.__init__, in the dict insertion
order the Python code iterates in. -/
def patternTable : List (Intent × List String) :=
  [(Intent.interview_request, interviewPats),
   (Intent.follow_up, followUpPats),
   (Intent.job_offer, jobOfferPats),
   (Intent.networking, networkingPats)]

/-- Number of patterns of one label that match the (already lower-cased)
text, given a non-raising model `m` of `re.search` (pattern, text): the
`scores[intent] += 1` loop of `_classify_with_rules`.  Each pattern
contributes at most 1. -/
def scoreOf (m : String → String → Bool) (t : String) (pats : List String) : Nat :=
  (pats.filter (fun p => m p t)).length

/-- The full score table of `_classify_with_rules` over the lower-cased
text, in pattern-table order. -/
def ruleScores (m : String → String → Bool) (text : String) : List (Intent × Nat) :=
  patternTable.map (fun ip => (ip.1, scoreOf m text.toLower ip.2))

/-- `max(scores.values())` (message_classifier.py line 135); the score
list is built from the non-empty pattern table, so folding from 0 agrees
with the Python max over a non-empty dict of Nat scores. -/
def maxScoreOf (scores : List (Intent × Nat)) : Nat :=
  (scores.map (fun s => s.2)).foldl Nat.max 0

/-- `top_intents`: the labels whose score equals the maximum, in score
table order (message_classifier.py line 141). -/
def topIntents (scores : List (Intent × Nat)) : List Intent :=
  (scores.filter (fun s => s.2 == maxScoreOf scores)).map (fun s => s.1)

/-- The selection logic of `_classify_with_rules` after scoring
(message_classifier.py lines 135-152): zero max gives `other`; a unique
top label is returned; on a tie `interview_request` is preferred when
present, otherwise the first tied label in iteration order. -/
def pickIntent (scores : List (Intent × Nat)) : Intent :=
  if maxScoreOf scores = 0 then Intent.other
  else if (topIntents scores).length = 1 then (topIntents scores).headD Intent.other
  else if Intent.interview_request ∈ topIntents scores then Intent.interview_request
  else (topIntents scores).headD Intent.other

/-- `MessageClassifier._classify_with_rules` under a non-raising model of
`re.search` (the normal case: the fixed pattern set is valid, so matching
does not raise). -/
def classifyWithRules (m : String → String → Bool) (text : String) : Intent :=
  pickIntent (ruleScores m text)

/-- The pattern loop of `_classify_with_rules` when `re.search` itself is
modelled as raise-capable (`Except.error` = the call raised); patterns are
tried in order and the first raising call aborts the stage. -/
def searchCountE (re : String → String → Except Unit Bool) (t : String) :
    List String → Except Unit Nat
  | [] => Except.ok 0
  | p :: ps =>
    match re p t with
    | Except.error e => Except.error e
    | Except.ok b =>
      match searchCountE re t ps with
      | Except.error e => Except.error e
      | Except.ok n => Except.ok (if b then n + 1 else n)

/-- Score table construction over the pattern table with a raise-capable
`re.search` model. -/
def ruleScoresE (re : String → String → Except Unit Bool) (t : String) :
    List (Intent × List String) → Except Unit (List (Intent × Nat))
  | [] => Except.ok []
  | ip :: rest =>
    match searchCountE re t ip.2 with
    | Except.error e => Except.error e
    | Except.ok n =>
      match ruleScoresE re t rest with
      | Except.error e => Except.error e
      | Except.ok tail => Except.ok ((ip.1, n) :: tail)

/-- `MessageClassifier._classify_with_rules` with a raise-capable
`re.search` model: an exception raised by matching propagates out of the
stage (it is only caught at the `classify` boundary). -/
def classifyWithRulesE (re : String → String → Except Unit Bool) (text : String) :
    Except Unit Intent :=
  match ruleScoresE re text.toLower patternTable with
  | Except.error e => Except.error e
  | Except.ok scores => Except.ok (pickIntent scores)

/-- Lifts a non-raising `re.search` model into the raise-capable form. -/
def okSearch (m : String → String → Bool) : String → String → Except Unit Bool :=
  fun p t => Except.ok (m p t)

/-- The state of `NLPProcessor` as seen by `MessageClassifier.classify`,
with the external calls as oracles:
  * `llm_enabled`: the `self.llm_enabled` attribute; `none` models the
    state after `__init__` failed before line 27 of nlp_processor.py
    (spacy.load raised), in which case the attribute was never assigned
    and reading it raises AttributeError;
  * `llm_nlp`: `none` when the LLM model is not initialized, otherwise
    the model call producing `doc.cats` (label, score) pairs, or raising;
  * `basic_nlp_ok`: truthiness of `self.basic_nlp` (checked at the top of
    `analyze_text`);
  * `spacyRaises`: whether processing the text inside the try block of
    `analyze_text` raises;
  * `reSearch`: the `re.search` behaviour used by the rule stage. -/
structure ClassifierEnv where
  llm_enabled : Option Bool
  llm_nlp : Option (String → Except Unit (List (Intent × Rat)))
  basic_nlp_ok : Bool
  spacyRaises : String → Bool
  reSearch : String → String → Except Unit Bool

/-- `NLPProcessor._classify_with_llm` (nlp_processor.py lines 194-219):
returns `{}` when the model is missing or the call raises, else the score
mapping `doc.cats`. -/
def llmCats (env : ClassifierEnv) (text : String) : List (Intent × Rat) :=
  match env.llm_nlp with
  | none => []
  | some f =>
    match f text with
    | Except.ok cats => cats
    | Except.error _ => []

/-- The `llm_classification` entry of the dict built by
`NLPProcessor.analyze_text` (nlp_processor.py lines 82-132): `none` when
the key is absent (uninitialized basic model, an exception inside the try
block, or the LLM branch not taken), otherwise the mapping produced by
`_classify_with_llm`. -/
def analyzeTextCats (env : ClassifierEnv) (text : String) :
    Option (List (Intent × Rat)) :=
  if env.basic_nlp_ok = false then none
  else if env.spacyRaises text = true then none
  else if env.llm_enabled.getD false && env.llm_nlp.isSome then
    some (llmCats env text)
  else none

/-- `max(cats.items(), key=lambda x: x[1])` over a non-empty mapping:
Python max keeps the first element among equals, so only a strictly
larger score replaces the current best. -/
def argmaxCats : List (Intent × Rat) → Intent
  | [] => Intent.unknown
  | c :: cs => (cs.foldl (fun best x => if x.2 > best.2 then x else best) c).1

/-- `MessageClassifier._classify_with_llm` (message_classifier.py lines
92-113): uses the LLM score mapping when the key is present and non-empty,
otherwise falls back to the rule stage. -/
def classifyWithLLME (env : ClassifierEnv) (text : String) : Except Unit Intent :=
  match analyzeTextCats env text with
  | some cats =>
    if cats.isEmpty then classifyWithRulesE env.reSearch text
    else Except.ok (argmaxCats cats)
  | none => classifyWithRulesE env.reSearch text

/-- The body of the try block of `MessageClassifier.classify`
(message_classifier.py lines 80-86).  Reading `self.nlp.llm_enabled` when
the attribute was never assigned raises AttributeError, modelled by the
`none` case. -/
def classifyStages (env : ClassifierEnv) (text : String) : Except Unit Intent :=
  match env.llm_enabled with
  | none => Except.error ()
  | some le =>
    if le && env.llm_nlp.isSome then classifyWithLLME env text
    else classifyWithRulesE env.reSearch text

/-- `MessageClassifier.classify` (message_classifier.py lines 67-90):
empty text short-circuits to `unknown`; any exception from the stages is
caught at this boundary and resolved to `unknown`. -/
def classify (env : ClassifierEnv) (text : String) : Intent :=
  if text = "" then Intent.unknown
  else
    match classifyStages env text with
    | Except.ok i => i
    | Except.error _ => Intent.unknown

/-- Running only the rule stage under the boundary catch of `classify`:
what a caller observes when the call reduces to the rule-based stage. -/
def rulesFallback (re : String → String → Except Unit Bool) (text : String) : Intent :=
  match classifyWithRulesE re text with
  | Except.ok i => i
  | Except.error _ => Intent.unknown

/-- The canonical message record produced by every connector (spec section
3; see for example the dict built in email_connector.py lines 112-121).
`timestamp` is either an ISO string or an epoch-millisecond number;
`sender_email` is an empty string for channels without addresses;
`raw_data` is the opaque source payload, never interpreted downstream;
`intent` is the mutable field written by the orchestrator loop before
storage (`none` before classification). -/
structure Message where
  id : String
  source : String
  sender_name : String
  sender_email : String
  timestamp : String ⊕ Int
  subject : String
  content : String
  raw_data : List (String × String)
  intent : Option Intent
deriving DecidableEq

/-- The externally visible calls the orchestrator loop makes for one
message (main.py lines 77-93): a storage write and, for interview
requests, a reply send with (recipient, subject, body). -/
inductive Effect where
  | store (m : Message)
  | sendReply (recipient : String) (subject : String) (body : String)
deriving DecidableEq

/-- The reply body built by the f-string at main.py line 92. -/
def replyBody (link : String) : String :=
  "Thank you for your interest! Please schedule a time using this link: " ++ link

/-- One iteration of the orchestrator loop (main.py lines 77-93): classify
the content, attach the intent, store the message, and when the intent is
`interview_request` send the scheduling reply to `message["sender_email"]`
— the code performs no emptiness check on the address. -/
def processMessage (env : ClassifierEnv) (link : String) (m : Message) : List Effect :=
  let intent := classify env m.content
  Effect.store { m with intent := some intent } ::
    (if intent = Intent.interview_request then
      [Effect.sendReply m.sender_email "Interview Scheduling" (replyBody link)]
    else [])

/-- The whole processing loop over the concatenated message list. -/
def processMessages (env : ClassifierEnv) (link : String) (msgs : List Message) :
    List Effect :=
  msgs.flatMap (processMessage env link)

/-- The sequential fetch calls of main.py lines 60-64: each entry is the
outcome of one `fetch_messages()` call; an exception from any call
propagates (there is no per-source catch in `main`), aborting the
remaining fetches. -/
def collectFetches : List (Except Unit (List Message)) → Except Unit (List (List Message))
  | [] => Except.ok []
  | f :: fs =>
    match f with
    | Except.error e => Except.error e
    | Except.ok ms =>
      match collectFetches fs with
      | Except.error e => Except.error e
      | Except.ok rest => Except.ok (ms :: rest)

/-- One batch run of `main` (main.py lines 42-99): fetch from every source
in order, concatenate, then run the processing loop.  An exception
reaching the outer try (for example a raising fetch) is caught at line 97
and the process exits non-zero having produced no effects, modelled by
`Except.error`. -/
def runBatch (env : ClassifierEnv) (link : String)
    (fetches : List (Except Unit (List Message))) : Except Unit (List Effect) :=
  match collectFetches fetches with
  | Except.error e => Except.error e
  | Except.ok lists => Except.ok (processMessages env link lists.flatten)

/-- The data rows of the "Messages" worksheet, below the header row
(google_sheets.py).  Column 1 of each row holds the message id. -/
structure MessagesSheet where
  rows : List (List String)
deriving DecidableEq

/-- `messages_sheet.col_values(1)[1:]` (google_sheets.py line 113): the
first cell of every data row, the header being excluded by construction
of `MessagesSheet`. -/
def colValues1 (s : MessagesSheet) : List String :=
  s.rows.map (fun r => r.headD "")

/-- The preview truncation of google_sheets.py lines 119-121. -/
def contentPreview (c : String) : String :=
  if c.length > 100 then c.take 100 ++ "..." else c

/-- The `row_data` list built by `store_message` (google_sheets.py lines
128-139).  `fmtEpoch` is the external datetime formatting applied to an
epoch-millisecond timestamp (lines 125-126); an ISO string timestamp is
kept as is; the intent cell defaults to "unknown" via `message.get`. -/
def rowData (fmtEpoch : Int → String) (m : Message) : List String :=
  [m.id, m.source, m.sender_name, m.sender_email,
   (match m.timestamp with
    | Sum.inl s => s
    | Sum.inr n => fmtEpoch n),
   m.subject, contentPreview m.content,
   (m.intent.map intentStr).getD "unknown", "false", ""]

/-- `GoogleSheetsStorage.store_message` (google_sheets.py lines 95-152) on
the in-memory mirror of the Messages worksheet.  `none` is the
uninitialized state (`self.sheet is None`, returns False).  When the id is
already present among column 1 of the data rows, the call returns True
without appending; otherwise the row is appended and True returned.  The
Stats worksheet update touches a different worksheet and catches its own
exceptions, so it cannot change this result and is not modelled; a Sheets
API exception (caught, returning False) is outside this model. -/
def store_message (fmtEpoch : Int → String) (sheet : Option MessagesSheet)
    (m : Message) : Bool × Option MessagesSheet :=
  match sheet with
  | none => (false, none)
  | some s =>
    if m.id ∈ colValues1 s then (true, some s)
    else (true, some ⟨s.rows ++ [rowData fmtEpoch m]⟩)

/-- The result of one call of the spaCy pipeline `self.basic_nlp(text)`
as consumed by `extract_entities` and `analyze_sentiment`: the entity
list as (label, surface text) pairs in document order, and the optional
`doc._.polarity` extension value (absent unless a sentiment extension is
installed; `getattr` then defaults to 0.0).  Scores are modelled as
rationals. -/
structure SpacyDoc where
  ents : List (String × String)
  polarity : Option Rat

/-- The sentiment dict returned by `NLPProcessor.analyze_sentiment`. -/
structure Sentiment where
  polarity : Rat
  is_positive : Bool
  is_negative : Bool
deriving DecidableEq

/-- The state of `NLPProcessor` needed by the analysis helpers: `none`
means `self.basic_nlp` is None (calling it raises, which both helpers
catch); otherwise the pipeline call, itself raise-capable. -/
structure NLPProcState where
  basic_nlp : Option (String → Except Unit SpacyDoc)

/-- One step of the entity-grouping loop of `extract_entities`
(nlp_processor.py lines 235-239): append the surface text under its
label, creating the key on first sight (dict insertion order kept). -/
def insertEnt (acc : List (String × List String)) (lbl txt : String) :
    List (String × List String) :=
  if acc.any (fun kv => kv.1 == lbl) then
    acc.map (fun kv => if kv.1 == lbl then (kv.1, kv.2 ++ [txt]) else kv)
  else acc ++ [(lbl, [txt])]

/-- The grouping of all document entities by label. -/
def groupEnts (ents : List (String × String)) : List (String × List String) :=
  ents.foldl (fun acc e => insertEnt acc e.1 e.2) []

/-- `NLPProcessor.extract_entities` (nlp_processor.py lines 221-245): any
failure (uninitialized pipeline or a raising call) is caught and resolved
to the empty mapping. -/
def extract_entities (st : NLPProcState) (text : String) :
    List (String × List String) :=
  match st.basic_nlp with
  | none => []
  | some f =>
    match f text with
    | Except.error _ => []
    | Except.ok doc => groupEnts doc.ents

/-- `NLPProcessor.analyze_sentiment` (nlp_processor.py lines 247-273):
on failure the zero-value shape; otherwise polarity from the optional
extension (default 0), with the 0.1 thresholds of lines 267-268. -/
def analyze_sentiment (st : NLPProcState) (text : String) : Sentiment :=
  match st.basic_nlp with
  | none => { polarity := 0, is_positive := false, is_negative := false }
  | some f =>
    match f text with
    | Except.error _ => { polarity := 0, is_positive := false, is_negative := false }
    | Except.ok doc =>
      let polarity := doc.polarity.getD 0
      { polarity := polarity,
        is_positive := decide (polarity > (1 : Rat) / 10),
        is_negative := decide (polarity < -((1 : Rat) / 10)) }

/-- The fields `CalendlyScheduler.__init__` assigns (calendly.py lines
14-34): the credentials from the environment and the hard-coded default
scheduling link of line 28. -/
structure CalendlyState where
  api_key : Option String
  organization : String
  user : String
  base_url : String
  default_link : String
deriving DecidableEq

/-- `CalendlyScheduler.__init__` as a function of its environment
variables (`CALENDLY_API_KEY` may be unset). -/
def calendlyInit (apiKey : Option String) (org usr : String) : CalendlyState :=
  { api_key := apiKey
    organization := org
    user := usr
    base_url := "https://api.calendly.com"
    default_link := "https://calendly.com/fake/interview" }

/-- `CalendlyScheduler.get_scheduling_link` (calendly.py lines 36-48):
returns `self.default_link` unconditionally, for every event type. -/
def get_scheduling_link (st : CalendlyState) (eventType : String) : String :=
  st.default_link

/-- A `re.search` model matching no pattern at all: the behaviour of the
real matcher on a text such as "zzzz" that contains no indicative phrase. -/
def noMatch : String → String → Bool :=
  fun _ _ => false

/-- The behaviour of `re.search` restricted to the text "interview": among
all patterns of the table, exactly the literal pattern "interview"
matches that text. -/
def interviewMatch : String → String → Bool :=
  fun p _ => p == "interview"

/-- The behaviour of `re.search` restricted to the text
"interview status": exactly the literal patterns "interview" (an
interview_request pattern) and "status" (a follow_up pattern) match. -/
def tieMatch : String → String → Bool :=
  fun p _ => p == "interview" || p == "status"

/-- A classifier environment in the rule-only configuration: construction
succeeded, `ENABLE_LLM` is false (so `llm_nlp` is None), the basic
pipeline is up, and matching never raises. -/
def ruleOnlyEnv (m : String → String → Bool) : ClassifierEnv :=
  { llm_enabled := some false
    llm_nlp := none
    basic_nlp_ok := true
    spacyRaises := fun _ => false
    reSearch := okSearch m }

/-- The `NLPProcessor` state after `spacy.load` raised in `__init__`
(nlp_processor.py lines 38-42): `basic_nlp` and `llm_nlp` are None and the
`llm_enabled` attribute was never assigned. -/
def uninitNLPEnv : ClassifierEnv :=
  { llm_enabled := none
    llm_nlp := none
    basic_nlp_ok := false
    spacyRaises := fun _ => false
    reSearch := okSearch interviewMatch }

/-- A message from a channel that exposes no address: `sender_email` is
the empty-string sentinel and the content classifies as an interview
request under the rule stage. -/
def emptyEmailMsg : Message :=
  { id := "m1"
    source := "linkedin"
    sender_name := "Ann"
    sender_email := ""
    timestamp := Sum.inl "2024-01-01T00:00:00Z"
    subject := ""
    content := "interview"
    raw_data := []
    intent := none }

/-- An empty Messages worksheet (just the header). -/
def sampleSheet : MessagesSheet := ⟨[]⟩

/-- A concrete already-classified message used to exercise storage. -/
def sampleMessage : Message :=
  { id := "msg-1"
    source := "gmail"
    sender_name := "Bob"
    sender_email := "bob@example.com"
    timestamp := Sum.inl "2024-02-02T00:00:00Z"
    subject := "hello"
    content := "checking in"
    raw_data := []
    intent := some Intent.follow_up }

/-- An `NLPProcessor` whose construction failed: `basic_nlp` is None. -/
def brokenNLP : NLPProcState := ⟨none⟩

theorem searchCountE_ok (m : String → String → Bool) (t : String) (ps : List String) :
    searchCountE (okSearch m) t ps = Except.ok (scoreOf m t ps) := by
  induction ps with
  | nil => rfl
  | cons p ps ih =>
    simp only [searchCountE, okSearch, ih, scoreOf, List.filter]
    cases m p t <;> simp [scoreOf]

theorem ruleScoresE_ok (m : String → String → Bool) (t : String)
    (tbl : List (Intent × List String)) :
    ruleScoresE (okSearch m) t tbl =
      Except.ok (tbl.map (fun ip => (ip.1, scoreOf m t ip.2))) := by
  induction tbl with
  | nil => rfl
  | cons ip rest ih =>
    simp [ruleScoresE, searchCountE_ok, ih]

/-- The two models of `_classify_with_rules` agree when matching does not
raise. -/
theorem classifyWithRulesE_ok (m : String → String → Bool) (text : String) :
    classifyWithRulesE (okSearch m) text = Except.ok (classifyWithRules m text) := by
  simp [classifyWithRulesE, ruleScoresE_ok, classifyWithRules, ruleScores]

theorem scoreOf_eq_zero (m : String → String → Bool) (t : String)
    (ps : List String) (h : ∀ p ∈ ps, m p t = false) :
    scoreOf m t ps = 0 := by
  unfold scoreOf
  rw [List.length_eq_zero, List.filter_eq_nil_iff]
  intro p hp
  simp [h p hp]

theorem collectFetches_ok (lists : List (List Message)) :
    collectFetches (lists.map Except.ok) = Except.ok lists := by
  induction lists with
  | nil => rfl
  | cons l ls ih => simp [collectFetches, ih]

/-- C6: empty (falsy) input text classifies as `unknown` immediately, for
every classifier state — in particular the result is independent of both
stages, which are never invoked (message_classifier.py lines 77-78). -/
theorem classify_empty_unknown (env : ClassifierEnv) :
    classify env "" = Intent.unknown := by
  simp [classify]

/-- C10: for every event type and every credential configuration,
`get_scheduling_link` returns the hard-coded placeholder link and never
raises — the link never comes from the Calendly API. -/
theorem scheduling_link_constant (apiKey : Option String) (org usr eventType : String) :
    get_scheduling_link (calendlyInit apiKey org usr) eventType =
      "https://calendly.com/fake/interview" := rfl

/-- C3: `classify` is a total function into the six-label set: for every
state and every input string it returns one of the six labels, and any
exception arising inside either classification stage (an `Except.error`
from the stage body) is resolved to `unknown` at the classifier
boundary. -/
theorem classify_total_six_labels (env : ClassifierEnv) (text : String) :
    classify env text ∈
      [Intent.interview_request, Intent.follow_up, Intent.job_offer,
       Intent.networking, Intent.other, Intent.unknown] ∧
    (classifyStages env text = Except.error () → classify env text = Intent.unknown) := by
  constructor
  · generalize classify env text = i
    cases i <;> decide
  · intro he
    by_cases ht : text = ""
    · simp [classify, ht]
    · simp [classify, ht, he]

/-- C3 witness: a concrete evaluation of the total-function theorem. -/
theorem classify_total_six_labels_witness :
    classify (ruleOnlyEnv interviewMatch) "interview" ∈
      [Intent.interview_request, Intent.follow_up, Intent.job_offer,
       Intent.networking, Intent.other, Intent.unknown] ∧
    (classifyStages (ruleOnlyEnv interviewMatch) "interview" = Except.error () →
      classify (ruleOnlyEnv interviewMatch) "interview" = Intent.unknown) :=
  classify_total_six_labels (ruleOnlyEnv interviewMatch) "interview"

/-- C4 counterexample: in the reachable state where `NLPProcessor.__init__`
failed (spacy.load raised), the LLM model is not initialized
(`llm_nlp = None`), yet `classify` on non-empty text returns `unknown`
instead of the rule-based label: reading the never-assigned
`self.nlp.llm_enabled` raises AttributeError, which the boundary catch
turns into `unknown`, so the fall-through to the rule stage promised by
the claim does not happen (the rule stage alone would classify
"interview" as `interview_request`). -/
theorem classify_unknown_when_flag_missing :
    uninitNLPEnv.llm_nlp = none ∧
    classify uninitNLPEnv "interview" = Intent.unknown ∧
    rulesFallback uninitNLPEnv.reSearch "interview" = Intent.interview_request ∧
    Intent.unknown ≠ Intent.interview_request :=
  ⟨rfl, by decide, by decide, by decide⟩

/-- C4 (amended): provided the NLP processor construction got far enough
to set the `llm_enabled` attribute, whenever the LLM stage is unavailable
— disabled by configuration, model not initialized, or the model call
raising — `classify` on non-empty text silently falls through to the
rule-based stage and returns exactly what the rule stage (under the
boundary catch) produces. -/
theorem classify_llm_unavailable_falls_back (env : ClassifierEnv) (text : String)
    (b : Bool) (hne : text ≠ "") (hset : env.llm_enabled = some b)
    (hun : b = false ∨ env.llm_nlp = none ∨
      ∃ f, env.llm_nlp = some f ∧ f text = Except.error ()) :
    classify env text = rulesFallback env.reSearch text := by
  have hstage : classifyStages env text = classifyWithRulesE env.reSearch text := by
    rcases hun with hb | hn | ⟨f, hf, hft⟩
    · simp [classifyStages, hset, hb]
    · simp [classifyStages, hset, hn]
    · cases b with
      | false => simp [classifyStages, hset]
      | true =>
        simp only [classifyStages, hset, hf, Option.isSome_some, Bool.and_true,
          if_pos]
        unfold classifyWithLLME
        cases hB : env.basic_nlp_ok with
        | false => simp [analyzeTextCats, hB]
        | true =>
          cases hS : env.spacyRaises text with
          | true => simp [analyzeTextCats, hB, hS]
          | false => simp [analyzeTextCats, hB, hS, hset, hf, llmCats, hft]
  simp [classify, hne, hstage, rulesFallback]

/-- C4 witness: with the LLM disabled by configuration the classifier
produces the rule-based label for a concrete text. -/
theorem classify_llm_unavailable_falls_back_witness :
    ("interview" : String) ≠ "" ∧
    classify (ruleOnlyEnv interviewMatch) "interview" =
      rulesFallback (ruleOnlyEnv interviewMatch).reSearch "interview" ∧
    rulesFallback (ruleOnlyEnv interviewMatch).reSearch "interview" =
      Intent.interview_request :=
  ⟨by decide,
   classify_llm_unavailable_falls_back (ruleOnlyEnv interviewMatch) "interview"
     false (by decide) rfl (Or.inl rfl),
   by decide⟩

/-- C5 counterexample: with a text that matches no pattern (for example
"zzzz", whose matcher behaviour is constantly false), all four labels tie
for the highest score (0), `interview_request` is among the tied labels,
yet the rule stage returns `other` — the zero-score guard at
message_classifier.py line 137 fires before the tie-break, refuting the
claim as stated. -/
theorem tie_at_zero_returns_other :
    2 ≤ (topIntents (ruleScores noMatch "zzzz")).length ∧
    Intent.interview_request ∈ topIntents (ruleScores noMatch "zzzz") ∧
    classifyWithRules noMatch "zzzz" = Intent.other := by
  refine ⟨by decide, by decide, by decide⟩

/-- C5 (amended): on the rule-based path, when two or more labels tie for
the strictly highest score AND that score is positive, the classifier
returns `interview_request` whenever it is among the tied labels, and
otherwise the first tied label in the pattern-table iteration order. -/
theorem tie_break_prefers_interview_request (m : String → String → Bool)
    (text : String) (hpos : maxScoreOf (ruleScores m text) ≠ 0)
    (htie : 2 ≤ (topIntents (ruleScores m text)).length) :
    (Intent.interview_request ∈ topIntents (ruleScores m text) →
      classifyWithRules m text = Intent.interview_request) ∧
    (Intent.interview_request ∉ topIntents (ruleScores m text) →
      classifyWithRules m text =
        (topIntents (ruleScores m text)).headD Intent.other) := by
  have hne1 : ¬(topIntents (ruleScores m text)).length = 1 := by omega
  constructor
  · intro hmem
    simp [classifyWithRules, pickIntent, hpos, hne1, hmem]
  · intro hmem
    simp [classifyWithRules, pickIntent, hpos, hne1, hmem]

/-- C5 witness: "interview status" matches exactly one interview_request
pattern and one follow_up pattern; the tie at the positive score 1 is
resolved to `interview_request`. -/
theorem tie_break_prefers_interview_request_witness :
    maxScoreOf (ruleScores tieMatch "interview status") ≠ 0 ∧
    2 ≤ (topIntents (ruleScores tieMatch "interview status")).length ∧
    Intent.interview_request ∈ topIntents (ruleScores tieMatch "interview status") ∧
    classifyWithRules tieMatch "interview status" = Intent.interview_request :=
  ⟨by decide, by decide, by decide,
   (tie_break_prefers_interview_request tieMatch "interview status"
     (by decide) (by decide)).1 (by decide)⟩

/-- C7: on the rule-based path, a non-empty text on which no pattern of
any label matches the lower-cased text (maximum score 0) classifies as
`other`. -/
theorem no_match_returns_other (m : String → String → Bool) (text : String)
    (hne : text ≠ "")
    (h : ∀ ip ∈ patternTable, ∀ p ∈ ip.2, m p text.toLower = false) :
    classifyWithRules m text = Intent.other := by
  have h1 : scoreOf m text.toLower interviewPats = 0 :=
    scoreOf_eq_zero m text.toLower interviewPats
      (h (Intent.interview_request, interviewPats) (by simp [patternTable]))
  have h2 : scoreOf m text.toLower followUpPats = 0 :=
    scoreOf_eq_zero m text.toLower followUpPats
      (h (Intent.follow_up, followUpPats) (by simp [patternTable]))
  have h3 : scoreOf m text.toLower jobOfferPats = 0 :=
    scoreOf_eq_zero m text.toLower jobOfferPats
      (h (Intent.job_offer, jobOfferPats) (by simp [patternTable]))
  have h4 : scoreOf m text.toLower networkingPats = 0 :=
    scoreOf_eq_zero m text.toLower networkingPats
      (h (Intent.networking, networkingPats) (by simp [patternTable]))
  have hs : ruleScores m text =
      [(Intent.interview_request, 0), (Intent.follow_up, 0),
       (Intent.job_offer, 0), (Intent.networking, 0)] := by
    simp [ruleScores, patternTable, h1, h2, h3, h4]
  unfold classifyWithRules
  rw [hs]
  decide

/-- C7 witness: the concrete no-match text "zzzz" returns `other`. -/
theorem no_match_returns_other_witness :
    classifyWithRules noMatch "zzzz" = Intent.other :=
  no_match_returns_other noMatch "zzzz" (by decide) (by decide)

/-- C1 counterexample: a message whose classified intent is
`interview_request` and whose `sender_email` is the empty string does
trigger a reply call — the loop at main.py lines 86-93 performs no
emptiness check and invokes `send_reply` with the empty recipient, so the
reply call is NOT skipped as claimed. -/
theorem reply_sent_despite_empty_sender :
    emptyEmailMsg.sender_email = "" ∧
    classify (ruleOnlyEnv interviewMatch) emptyEmailMsg.content =
      Intent.interview_request ∧
    Effect.sendReply "" "Interview Scheduling"
        (replyBody "https://calendly.com/fake/interview") ∈
      processMessage (ruleOnlyEnv interviewMatch)
        "https://calendly.com/fake/interview" emptyEmailMsg := by
  refine ⟨rfl, by decide, by decide⟩

/-- C1 (amended): every message whose classified intent is
`interview_request` is stored and always triggers a `send_reply` call
whose recipient is the message `sender_email` field — also when that
field is the empty string; there is no reply-skip for address-less
channels. -/
theorem interview_reply_always_sent (env : ClassifierEnv) (link : String)
    (m : Message) (h : classify env m.content = Intent.interview_request) :
    processMessage env link m =
      [Effect.store { m with intent := some Intent.interview_request },
       Effect.sendReply m.sender_email "Interview Scheduling" (replyBody link)] := by
  simp [processMessage, h]

/-- C1 witness: the concrete empty-address interview request is stored
and still produces the reply call with the empty recipient. -/
theorem interview_reply_always_sent_witness :
    classify (ruleOnlyEnv interviewMatch) emptyEmailMsg.content =
      Intent.interview_request ∧
    processMessage (ruleOnlyEnv interviewMatch) "L" emptyEmailMsg =
      [Effect.store { emptyEmailMsg with intent := some Intent.interview_request },
       Effect.sendReply emptyEmailMsg.sender_email "Interview Scheduling"
         (replyBody "L")] :=
  ⟨by decide,
   interview_reply_always_sent (ruleOnlyEnv interviewMatch) "L" emptyEmailMsg
     (by decide)⟩

/-- C2 counterexample: when the first fetch call raises
(`Except.error ()`) while a second source yields a message, the whole
batch aborts with no effect at all — main.py wraps all five fetches in
one try (lines 42-99), so the message of the healthy source is never
classified nor stored, refuting the per-source isolation claim.  By
contrast, a failure signalled as an empty list (the form the connectors
actually produce) leaves the rest of the batch intact. -/
theorem raising_fetch_aborts_batch :
    runBatch (ruleOnlyEnv interviewMatch) "https://calendly.com/fake/interview"
        [Except.error (), Except.ok [emptyEmailMsg]] = Except.error () ∧
    runBatch (ruleOnlyEnv interviewMatch) "https://calendly.com/fake/interview"
        [Except.ok [], Except.ok [emptyEmailMsg]] =
      Except.ok (processMessages (ruleOnlyEnv interviewMatch)
        "https://calendly.com/fake/interview" [emptyEmailMsg]) :=
  ⟨rfl, rfl⟩

/-- C2 (amended): when every fetch call returns normally (the connectors
catch their own failures internally and signal them as an empty list), a
failing source contributes zero messages and every message fetched from
every other source is still classified and stored by the batch. -/
theorem ok_fetches_all_stored (env : ClassifierEnv) (link : String)
    (lists : List (List Message)) (m : Message) (hm : m ∈ lists.flatten) :
    runBatch env link (lists.map Except.ok) =
      Except.ok (processMessages env link lists.flatten) ∧
    Effect.store { m with intent := some (classify env m.content) } ∈
      processMessages env link lists.flatten := by
  constructor
  · simp [runBatch, collectFetches_ok]
  · unfold processMessages
    refine List.mem_flatMap.mpr ⟨m, hm, ?_⟩
    simp [processMessage]

/-- C2 witness: a batch where the first source contributes nothing (its
failure was caught inside the adapter) still stores the message of the
second source. -/
theorem ok_fetches_all_stored_witness :
    emptyEmailMsg ∈ ([[], [emptyEmailMsg]] : List (List Message)).flatten ∧
    runBatch (ruleOnlyEnv interviewMatch) "L"
        (([[], [emptyEmailMsg]] : List (List Message)).map Except.ok) =
      Except.ok (processMessages (ruleOnlyEnv interviewMatch) "L"
        ([[], [emptyEmailMsg]] : List (List Message)).flatten) ∧
    Effect.store { emptyEmailMsg with
        intent := some (classify (ruleOnlyEnv interviewMatch)
          emptyEmailMsg.content) } ∈
      processMessages (ruleOnlyEnv interviewMatch) "L"
        ([[], [emptyEmailMsg]] : List (List Message)).flatten :=
  ⟨by decide,
   ok_fetches_all_stored (ruleOnlyEnv interviewMatch) "L"
     [[], [emptyEmailMsg]] emptyEmailMsg (by decide)⟩

/-- C8: storage is idempotent on the message id.  Starting from a sheet
not yet holding the id, the first call appends exactly one row and
returns True; the second call with the same message finds the id in
column 1, appends nothing, returns True, and leaves the sheet unchanged —
so storing the same id twice yields exactly one stored record. -/
theorem store_message_idempotent (fmtEpoch : Int → String) (s : MessagesSheet)
    (m : Message) (hfresh : m.id ∉ colValues1 s) :
    store_message fmtEpoch (some s) m =
      (true, some ⟨s.rows ++ [rowData fmtEpoch m]⟩) ∧
    store_message fmtEpoch (some ⟨s.rows ++ [rowData fmtEpoch m]⟩) m =
      (true, some ⟨s.rows ++ [rowData fmtEpoch m]⟩) := by
  constructor
  · simp [store_message, hfresh]
  · have hmem : m.id ∈ colValues1 ⟨s.rows ++ [rowData fmtEpoch m]⟩ := by
      simp [colValues1, rowData]
    simp [store_message, hmem]

/-- C8 witness: storing a concrete message twice into the empty sheet
leaves exactly its one row. -/
theorem store_message_idempotent_witness :
    store_message (fun _ => "") (some sampleSheet) sampleMessage =
      (true, some ⟨sampleSheet.rows ++ [rowData (fun _ => "") sampleMessage]⟩) ∧
    store_message (fun _ => "")
        (some ⟨sampleSheet.rows ++ [rowData (fun _ => "") sampleMessage]⟩)
        sampleMessage =
      (true, some ⟨sampleSheet.rows ++ [rowData (fun _ => "") sampleMessage]⟩) :=
  store_message_idempotent (fun _ => "") sampleSheet sampleMessage (by decide)

/-- C9: the analysis helpers are total: on any internal failure
(uninitialized pipeline, meaning the call of None raises TypeError, or a
raising pipeline call) `extract_entities` returns the empty mapping and
`analyze_sentiment` the zero-value shape; and in every sentiment result
`is_positive` holds exactly when polarity exceeds 1/10 and `is_negative`
exactly when polarity is below -1/10. -/
theorem entities_sentiment_never_raise (st : NLPProcState) (text : String) :
    ((st.basic_nlp = none ∨
        ∃ f, st.basic_nlp = some f ∧ f text = Except.error ()) →
      extract_entities st text = [] ∧
      analyze_sentiment st text =
        { polarity := 0, is_positive := false, is_negative := false }) ∧
    ((analyze_sentiment st text).is_positive = true ↔
      (analyze_sentiment st text).polarity > (1 : Rat) / 10) ∧
    ((analyze_sentiment st text).is_negative = true ↔
      (analyze_sentiment st text).polarity < -((1 : Rat) / 10)) := by
  cases hb : st.basic_nlp with
  | none =>
    refine ⟨fun _ => ⟨?_, ?_⟩, ?_, ?_⟩ <;>
      simp [extract_entities, analyze_sentiment, hb] <;> decide
  | some f =>
    cases hf : f text with
    | error e =>
      cases e
      refine ⟨fun _ => ⟨?_, ?_⟩, ?_, ?_⟩ <;>
        simp [extract_entities, analyze_sentiment, hb, hf] <;> decide
    | ok doc =>
      refine ⟨?_, ?_, ?_⟩
      · rintro (hn | ⟨g, hg, hgt⟩)
        · exact absurd hn (by simp)
        · cases Option.some.inj hg
          rw [hf] at hgt
          exact absurd hgt (by simp)
      · simp [analyze_sentiment, hb, hf]
      · simp [analyze_sentiment, hb, hf]

/-- C9 witness: the broken processor state yields the zero-value shapes. -/
theorem entities_sentiment_never_raise_witness :
    extract_entities brokenNLP "hello" = [] ∧
    analyze_sentiment brokenNLP "hello" =
      { polarity := 0, is_positive := false, is_negative := false } :=
  (entities_sentiment_never_raise brokenNLP "hello").1 (Or.inl rfl)
